import Mathlib

/-!
Verification of the poll-lifecycle engine of the `asg-discordbot` repository
(`src/cogs/schedule.py`, `src/bot.py`) against its natural-language
specification.

Shallow embedding conventions:
* Calendar dates and datetimes are modelled at day granularity as `Int`
  day numbers (the source normalizes every date to midnight in the session
  timezone via `astimezone(...).replace(hour=0, minute=0, second=0)`, so the
  timezone/midnight normalization is the identity at this granularity).
  `pyWeekday d = (d % 7).toNat` models Python's `datetime.weekday()`
  (Monday = 0, ..., Sunday = 6) with day number 0 chosen to be a Monday.
* Python exceptions are modelled with `Except` / explicit error fields;
  external collaborators (Discord message fetch/edit, `jpholiday`,
  `dateutil.parser.parse`) are parameters of the embedded functions.
* Vote counts are `Int` (the source computes `r.count - 1`).
-/

/-- Model of Python's builtin `max` on a list of ints: `None` stands for the
`ValueError` raised on an empty list, otherwise the greatest element
(`max(xs)` in `schedule.py` line 492). -/
def pymax : List Int → Option Int
  | [] => none
  | x :: xs => some (xs.foldl max x)

/-- Model of Python's `list.index(v)`: the first index holding `v`, `None`
standing for the `ValueError` raised when `v` is absent
(`reaction_result.index(...)` in `schedule.py` line 492). -/
def pyIndex (v : Int) : List Int → Option Nat
  | [] => none
  | x :: xs => if x = v then some 0 else (pyIndex v xs).map (· + 1)

/-- Error outcome of the tally step. -/
inductive TallyErr
  | noVotes
  deriving DecidableEq, Repr

/-- Embedding of the tally expression
`reaction_result.index(max(reaction_result))` (`schedule.py` line 492)
together with the surrounding `try/except ValueError`: a `ValueError` from
either `max` (empty list) or `.index` is mapped to `.error .noVotes`. -/
def tallyIdx (counts : List Int) : Except TallyErr Nat :=
  match pymax counts with
  | none => .error .noVotes
  | some m =>
    match pyIndex m counts with
    | none => .error .noVotes
    | some i => .ok i

/-- Model of Python's `datetime.weekday()` on day numbers: Monday = 0 through
Sunday = 6, with day number 0 fixed to be a Monday. -/
def pyWeekday (d : Int) : Nat := (d % 7).toNat

/-- Keys of the `ScheduleCog.FILTER_TYPE` dict (`schedule.py` lines 58-63).
Note the source spells the fourth key `"holydays"`. -/
def FILTER_KEYS : List String := ["all", "weekday", "weekend", "holydays"]

/-- Embedding of the `ScheduleCog.FILTER_TYPE` dict lookup
(`schedule.py` lines 58-63): `isHoliday` is the external `jpholiday`
collaborator. `none` models a missing key. -/
def filterOfName (isHoliday : Int → Bool) (name : String) :
    Option (Int → Bool) :=
  if name = "all" then some (fun _ => true)
  else if name = "weekday" then some (fun x => decide (pyWeekday x < 5))
  else if name = "weekend" then some (fun x => decide (pyWeekday x ≥ 5))
  else if name = "holydays" then
    some (fun x => decide (pyWeekday x ≥ 5) || isHoliday x)
  else none

/-- Constant `ScheduleCog.DEFAULT_COLLECT_RANGE` (`schedule.py` line 57). -/
def DEFAULT_COLLECT_RANGE : Int := 7

/-- Embedding of `ScheduleCog.generate_schedule_dates`
(`schedule.py` lines 91-134) at day granularity. Parameters follow the
source: `now` models `datetime.now()`, `selfScheduleRange` models the
`self.schedule_range` instance attribute read when both `end_date` and
`schedule_range` are absent. Python's `range(n)` on a non-positive `n` is
empty, modelled by `Int.toNat`. -/
def generate_schedule_dates (now : Int) (start_date : Option Int)
    (end_date : Option Int) (schedule_range : Option Int)
    (collect_end_date : Option Int) (filter : Int → Bool)
    (selfScheduleRange : Int) : List Int :=
  let start := start_date.getD now
  let r : Int :=
    match end_date with
    | none => schedule_range.getD selfScheduleRange
    | some e => (e - start) + 1
  let ce := collect_end_date.getD (now + DEFAULT_COLLECT_RANGE)
  (List.range r.toNat).filterMap (fun (i : Nat) =>
    let day := start + (i : Int)
    if filter day && decide (day > ce) then some day else none)

/-- Parameters of `CollectingStatus.__init__` that have no default value
(`schedule.py` lines 19-33), excluding `self`. -/
def collectingStatusRequiredParams : List String :=
  ["interaction", "hooked_message", "event_number", "start_date", "end_date",
   "collect_start_date", "collect_end_date", "author_text"]

/-- Parameters of `CollectingStatus.__init__` that have a default value
(`schedule.py` lines 29-32). -/
def collectingStatusOptionalParams : List String :=
  ["website_url", "dates", "time_range", "timezone"]

/-- Keyword names supplied at the `CollectingStatus(...)` construction in
`ScheduleCog.schedule` (`schedule.py` lines 448-460). -/
def scheduleConstructionKwargs : List String :=
  ["interaction", "hooked_message", "start_date", "end_date",
   "collect_start_date", "collect_end_date", "author_text", "website_url",
   "dates", "time_range", "timezone"]

/-- Keyword names supplied at the `CollectingStatus(...)` construction in
`ScheduleCog.addup` (`schedule.py` lines 626-637). -/
def addupConstructionKwargs : List String :=
  ["interaction", "hooked_message", "start_date", "end_date",
   "collect_start_date", "collect_end_date", "author_text", "website_url",
   "dates", "time_range"]

/-- Python keyword-call semantics for `CollectingStatus.__init__`: the call
binds iff every required parameter is supplied and every supplied keyword is
a declared parameter; otherwise the call raises `TypeError`. -/
def collectingStatusCallOk (supplied : List String) : Bool :=
  collectingStatusRequiredParams.all (fun p => supplied.contains p) &&
  supplied.all (fun k =>
    (collectingStatusRequiredParams ++ collectingStatusOptionalParams).contains k)

/-- Embedding of the construct-then-register step
(`status = CollectingStatus(...)` followed by `self.collecting.append(status)`,
`schedule.py` lines 448-461 and 626-638): if the keyword call does not bind, a
`TypeError` propagates and the registry is left unchanged; `()` is the
`TypeError`. The registry is abstracted to the list of session identifiers. -/
def constructAndRegister (collecting : List Nat) (kwargs : List String)
    (newId : Nat) : Except Unit (List Nat) :=
  if collectingStatusCallOk kwargs then .ok (collecting ++ [newId])
  else .error ()

/-- Session record held in `ScheduleCog.collecting`. The embedding keeps the
fields the modelled control flow reads: `id` stands for the identity of the
hooked poll message (the `external_reference`), `guild` for
`interaction.guild` / `hooked_message.guild` (`none` models Python `None`),
`collect_end_date` for the end of the vote window, `dates` for the candidate
dates. The remaining `CollectingStatus` fields (start/end date, author text,
website url, time range, timezone) are pure passthrough display data never
read by the modelled control flow. -/
structure Session where
  id : Nat
  guild : Option Nat
  collect_end_date : Int
  dates : List Int
  deriving DecidableEq, Repr

/-- Outcomes of the external Discord collaborator calls made during
aggregation: `fetchCounts` returns the raw reaction counts (`r.count`) of the
poll message with the given id, `editOk` tells whether editing that message
succeeds. -/
structure Env where
  fetchCounts : Nat → List Int
  editOk : Nat → Bool

/-- Python exceptions that can escape `ScheduleCog.addUpVotes`. -/
inductive PyErr
  | valueErrorNoVotes
  | indexError
  | editFailed
  | guildNoneError
  | nameErrorEventNumber
  deriving DecidableEq, Repr

/-- Result of one `addUpVotes` run: the registry (`self.collecting`) after the
run, whether the tally-failure embed was sent to the poll originator, and the
exception that escaped, if any. -/
structure AddUpOutcome where
  registry : List Session
  reportedTallyFailure : Bool
  error : Option PyErr
  deriving DecidableEq, Repr

/-- Adjusted per-candidate vote counts built in `ScheduleCog.addUpVotes`
(`schedule.py` lines 486-488): `r.count - 1` for each reaction of the fetched
poll message, the `- 1` excluding the bot's own seed reaction. -/
def reaction_result (env : Env) (sid : Nat) : List Int :=
  (env.fetchCounts sid).map (fun c => c - 1)

/-- Embedding of `ScheduleCog.addUpVotes` (`schedule.py` lines 480-541),
step by step:
* `change_presence()` (line 482) is a status-collaborator call with no
  modelled failure mode;
* lines 483-488 fetch the message and build `reaction_result` (above);
* line 492 is the tally; on `ValueError` the error embed is sent to
  `status.interaction` and the exception re-raised (lines 493-502);
* line 504 indexes `status.dates[max_reaction_date_index]` (`IndexError`
  when out of range); lines 509-517 build the result embed, indexing
  `reaction_result[i]` for every candidate index (`IndexError` when there are
  fewer reactions than candidates; the parallel `reaction_emojis[i]` lookup is
  abstracted away);
* line 518 edits the poll message (may fail, per `Env.editOk`);
* lines 521-522 raise `ValueError` when `interaction.guild` is `None`;
* line 527 evaluates `f"... {event_number} ..."` as the `name` argument of
  `create_event`; the name `event_number` is not defined anywhere in
  `addUpVotes`'s scope, so this unconditionally raises `NameError`;
* lines 528-541 (event creation, follow-up, and
  `self.collecting.remove(status)`) are therefore unreachable. -/
def addUpVotes (env : Env) (collecting : List Session) (status : Session) :
    AddUpOutcome :=
  match tallyIdx (reaction_result env status.id) with
  | .error _ => ⟨collecting, true, some .valueErrorNoVotes⟩
  | .ok max_reaction_date_index =>
    match status.dates[max_reaction_date_index]? with
    | none => ⟨collecting, false, some .indexError⟩
    | some _ =>
      if decide ((reaction_result env status.id).length < status.dates.length) then
        ⟨collecting, false, some .indexError⟩
      else if env.editOk status.id = false then
        ⟨collecting, false, some .editFailed⟩
      else if status.guild = none then
        ⟨collecting, false, some .guildNoneError⟩
      else
        ⟨collecting, false, some .nameErrorEventNumber⟩

/-- Result of one scheduler tick: the registry after the tick, the ids of the
sessions whose aggregation was invoked, and the exception that escaped the
tick body, if any. -/
structure TickOutcome where
  registry : List Session
  invoked : List Nat
  error : Option PyErr
  deriving DecidableEq, Repr

/-- Auxiliary index-based loop for `update_presence`, modelling CPython's
list-iterator semantics for `for c in self.collecting`: the iterator keeps a
cursor `i` into the current (live, possibly mutated) list and stops when the
cursor passes the end. `fuel` bounds the recursion; the loop runs at most
`length + 1` steps since the cursor only grows and the list never grows. An
exception escaping the body aborts the whole scan. -/
def update_presence_aux (env : Env) (now : Int) :
    Nat → Nat → List Session → List Nat → TickOutcome
  | 0, _, cur, acc => ⟨cur, acc, none⟩
  | fuel + 1, i, cur, acc =>
    match cur[i]? with
    | none => ⟨cur, acc, none⟩
    | some c =>
      if c.collect_end_date < now then
        let r := addUpVotes env cur c
        match r.error with
        | some e => ⟨r.registry, acc ++ [c.id], some e⟩
        | none => update_presence_aux env now fuel (i + 1) r.registry (acc ++ [c.id])
      else
        update_presence_aux env now fuel (i + 1) cur acc

/-- Embedding of one tick of the `ScheduleCog.update_presence` task
(`schedule.py` lines 469-478): iterate the live `self.collecting` list; for
each session whose `collect_end_date` has passed, run `addUpVotes`; otherwise
refresh the presence (status collaborator, no modelled failure). -/
def update_presence (env : Env) (now : Int) (collecting : List Session) :
    TickOutcome :=
  update_presence_aux env now (collecting.length + 1) 0 collecting []

/-- Validation errors of the `/schedule` start flow, in source order
(`schedule.py` lines 265-380); `assertionError` is the bare
`assert start_datetime is not None and end_datetime is not None` at
line 330. -/
inductive ScheduleErr
  | alreadyCollecting
  | notInGuild
  | conflictingParams
  | unknownFilter
  | invalidStartDate
  | invalidEndDate
  | assertionError
  | endNotAfterStart
  | pastDate
  | scheduleOverlap
  | timeRangeOutOfBounds
  | timeRangeOrder
  deriving DecidableEq, Repr

/-- Arguments of the `/schedule` command (`schedule.py` lines 243-256) read by
the validation phase. Date arguments stay as strings; parsing is performed by
the external `dateutil.parser.parse` collaborator. -/
structure ScheduleRequest where
  guild : Option Nat
  start_date : Option String
  end_date : Option String
  schedule_range : Option Int
  filter_type : String
  time_range_start : Int
  time_range_end : Int
  deriving DecidableEq, Repr

/-- Embedding of the validation phase of `ScheduleCog.schedule`
(`schedule.py` lines 265-380), in source order: the already-collecting scan
(compares each held message's guild with the interaction's guild), the
guild-context check, the `schedule_range`/`end_date` conflict check, the
`filter_type` dict-membership check (line 294), then `dateutil` parsing of
`start_date` and `end_date` (lines 306-328, `none` from `parseDate` models
`ParserError`), the bare assertion at line 330, and the date/time-range
ordering checks (lines 332-379). `.ok (start, end)` means control reaches the
candidate-generation phase at line 383 with those parsed dates. -/
def scheduleCheck (parseDate : String → Option Int) (now : Int)
    (collecting : List Session) (req : ScheduleRequest) :
    Except ScheduleErr (Int × Int) :=
  if collecting.any (fun c => c.guild == req.guild) then .error .alreadyCollecting
  else if req.guild = none then .error .notInGuild
  else if req.schedule_range.isSome && req.end_date.isSome then
    .error .conflictingParams
  else if !(FILTER_KEYS.contains req.filter_type) then .error .unknownFilter
  else
    let sdtE : Except ScheduleErr (Option Int) :=
      match req.start_date with
      | none => .ok none
      | some s =>
        match parseDate s with
        | none => .error .invalidStartDate
        | some d => .ok (some d)
    match sdtE with
    | .error e => .error e
    | .ok sdt =>
      let edtE : Except ScheduleErr (Option Int) :=
        match req.end_date with
        | none => .ok none
        | some s =>
          match parseDate s with
          | none => .error .invalidEndDate
          | some d => .ok (some d)
      match edtE with
      | .error e => .error e
      | .ok edt =>
        match sdt, edt with
        | some sd, some ed =>
          if ed ≤ sd then .error .endNotAfterStart
          else if sd < now || ed < now then .error .pastDate
          else if sd < now + DEFAULT_COLLECT_RANGE then .error .scheduleOverlap
          else if req.time_range_start < 0 || req.time_range_start > 23 ||
              req.time_range_end < 0 || req.time_range_end > 23 then
            .error .timeRangeOutOfBounds
          else if req.time_range_start ≥ req.time_range_end then
            .error .timeRangeOrder
          else .ok (sd, ed)
        | _, _ => .error .assertionError

theorem foldl_max_eq_or_mem (xs : List Int) :
    ∀ x : Int, xs.foldl max x = x ∨ xs.foldl max x ∈ xs := by
  induction xs with
  | nil => intro x; left; rfl
  | cons a xs ih =>
    intro x
    simp only [List.foldl_cons]
    rcases ih (max x a) with h | h
    · rw [h]
      rcases max_choice x a with hx | ha
      · left; exact hx
      · right; rw [ha]; exact List.mem_cons_self a xs
    · right; exact List.mem_cons_of_mem a h

theorem le_foldl_max (xs : List Int) : ∀ x : Int, x ≤ xs.foldl max x := by
  induction xs with
  | nil => intro x; exact le_refl x
  | cons a xs ih =>
    intro x
    simp only [List.foldl_cons]
    exact le_trans (le_max_left x a) (ih (max x a))

theorem mem_le_foldl_max (xs : List Int) :
    ∀ x y : Int, y ∈ xs → y ≤ xs.foldl max x := by
  induction xs with
  | nil => intro x y hy; exact absurd hy (List.not_mem_nil y)
  | cons a xs ih =>
    intro x y hy
    simp only [List.foldl_cons]
    rcases List.mem_cons.mp hy with rfl | hy
    · exact le_trans (le_max_right x y) (le_foldl_max xs (max x y))
    · exact ih (max x a) y hy

theorem pymax_mem {l : List Int} {m : Int} (h : pymax l = some m) : m ∈ l := by
  cases l with
  | nil => exact absurd h (by simp [pymax])
  | cons x xs =>
    simp only [pymax, Option.some.injEq] at h
    subst h
    rcases foldl_max_eq_or_mem xs x with h | h
    · rw [h]; exact List.mem_cons_self x xs
    · exact List.mem_cons_of_mem x h

theorem pymax_is_ub {l : List Int} {m : Int} (h : pymax l = some m) :
    ∀ y ∈ l, y ≤ m := by
  cases l with
  | nil => intro y hy; exact absurd hy (List.not_mem_nil y)
  | cons x xs =>
    simp only [pymax, Option.some.injEq] at h
    subst h
    intro y hy
    rcases List.mem_cons.mp hy with rfl | hy
    · exact le_foldl_max xs y
    · exact mem_le_foldl_max xs x y hy

theorem pymax_eq_none_iff {l : List Int} : pymax l = none ↔ l = [] := by
  cases l <;> simp [pymax]

theorem pyIndex_spec {v : Int} :
    ∀ {l : List Int} {i : Nat}, pyIndex v l = some i →
      i < l.length ∧ l.getD i 0 = v ∧ ∀ j, j < i → l.getD j 0 ≠ v := by
  intro l
  induction l with
  | nil => intro i h; exact absurd h (by simp [pyIndex])
  | cons x xs ih =>
    intro i h
    by_cases hx : x = v
    · simp only [pyIndex, if_pos hx, Option.some.injEq] at h
      subst h
      exact ⟨Nat.succ_pos _, hx, fun j hj => absurd hj (Nat.not_lt_zero j)⟩
    · simp only [pyIndex, if_neg hx, Option.map_eq_some'] at h
      obtain ⟨i', hi', rfl⟩ := h
      obtain ⟨hlen, hget, hprev⟩ := ih hi'
      refine ⟨Nat.succ_lt_succ hlen, hget, ?_⟩
      intro j hj
      cases j with
      | zero => simpa using hx
      | succ j' => exact hprev j' (Nat.lt_of_succ_lt_succ hj)

theorem pyIndex_of_mem {v : Int} :
    ∀ {l : List Int}, v ∈ l → ∃ i, pyIndex v l = some i := by
  intro l
  induction l with
  | nil => intro h; exact absurd h (List.not_mem_nil v)
  | cons x xs ih =>
    intro h
    by_cases hx : x = v
    · exact ⟨0, by simp [pyIndex, hx]⟩
    · have hv : v ∈ xs := by
        rcases List.mem_cons.mp h with rfl | hv
        · exact absurd rfl hx
        · exact hv
      obtain ⟨i, hi⟩ := ih hv
      exact ⟨i + 1, by simp [pyIndex, hx, hi]⟩

theorem tallyIdx_error_iff {counts : List Int} :
    tallyIdx counts = .error .noVotes ↔ counts = [] := by
  constructor
  · intro h
    by_contra hne
    have hmax : pymax counts ≠ none := fun hn => hne (pymax_eq_none_iff.mp hn)
    obtain ⟨m, hm⟩ := Option.ne_none_iff_exists'.mp hmax
    obtain ⟨i, hi⟩ := pyIndex_of_mem (pymax_mem hm)
    simp [tallyIdx, hm, hi] at h
  · intro h; subst h; rfl

theorem tallyIdx_ok_spec {counts : List Int} {i : Nat}
    (h : tallyIdx counts = .ok i) :
    i < counts.length ∧ (∀ y ∈ counts, y ≤ counts.getD i 0) ∧
    ∀ j, j < i → counts.getD j 0 < counts.getD i 0 := by
  unfold tallyIdx at h
  split at h
  · exact absurd h (by simp)
  · rename_i m hm
    split at h
    · exact absurd h (by simp)
    · rename_i i' hidx
      simp only [Except.ok.injEq] at h
      subst h
      obtain ⟨hlen, hget, hprev⟩ := pyIndex_spec hidx
      refine ⟨hlen, ?_, ?_⟩
      · intro y hy; rw [hget]; exact pymax_is_ub hm y hy
      · intro j hj
        have hjlen : j < counts.length := lt_trans hj hlen
        have hmem : counts.getD j 0 ∈ counts := by
          rw [List.getD_eq_getElem counts 0 hjlen]
          exact List.getElem_mem hjlen
        have hle : counts.getD j 0 ≤ m := pymax_is_ub hm _ hmem
        have hne : counts.getD j 0 ≠ m := hprev j hj
        rw [hget]
        exact lt_of_le_of_ne hle hne

/-- C1: both `CollectingStatus(...)` constructions — in the start flow
(`schedule.py` lines 448-460) and in the addup-by-message-id flow
(lines 626-637) — omit the required `event_number` parameter of
`CollectingStatus.__init__` (line 23), so each call raises `TypeError` and no
session is ever appended to `self.collecting` through these paths. -/
theorem c1_construction_always_fails (collecting : List Nat) (newId : Nat) :
    constructAndRegister collecting scheduleConstructionKwargs newId =
      .error () ∧
    constructAndRegister collecting addupConstructionKwargs newId =
      .error () := by
  have h1 : collectingStatusCallOk scheduleConstructionKwargs = false := by
    decide
  have h2 : collectingStatusCallOk addupConstructionKwargs = false := by decide
  exact ⟨by simp [constructAndRegister, h1], by simp [constructAndRegister, h2]⟩

/-- C4: for every non-empty vote-count list, the tally
`reaction_result.index(max(reaction_result))` (`schedule.py` line 492) returns
the first (lowest) index achieving the maximum — a stable left-to-right
tie-break — and in particular the tally of `[3, 5, 5, 1]` is index 1. -/
theorem c4_tally_first_max (counts : List Int) (h : counts ≠ []) :
    (∃ i, tallyIdx counts = .ok i ∧ i < counts.length ∧
      (∀ y ∈ counts, y ≤ counts.getD i 0) ∧
      ∀ j, j < i → counts.getD j 0 < counts.getD i 0) ∧
    tallyIdx [3, 5, 5, 1] = .ok 1 := by
  refine ⟨?_, rfl⟩
  cases htally : tallyIdx counts with
  | error e =>
    cases e
    exact absurd (tallyIdx_error_iff.mp htally) h
  | ok i =>
    obtain ⟨hlen, hmax, hfirst⟩ := tallyIdx_ok_spec htally
    exact ⟨i, rfl, hlen, hmax, hfirst⟩

theorem c4_tally_first_max_witness :
    ([3, 5, 5, 1] : List Int) ≠ [] ∧
    ((∃ i, tallyIdx [3, 5, 5, 1] = .ok i ∧ i < ([3, 5, 5, 1] : List Int).length ∧
      (∀ y ∈ ([3, 5, 5, 1] : List Int), y ≤ ([3, 5, 5, 1] : List Int).getD i 0) ∧
      ∀ j, j < i → ([3, 5, 5, 1] : List Int).getD j 0 <
        ([3, 5, 5, 1] : List Int).getD i 0) ∧
    tallyIdx [3, 5, 5, 1] = .ok 1) :=
  ⟨by decide, c4_tally_first_max [3, 5, 5, 1] (by decide)⟩

/-- C5: the tally fails with the no-votes `ValueError` iff the count list is
empty, and in that case `addUpVotes` sends the tally-failure embed to the
poll's originator (`schedule.py` lines 494-501) and re-raises the exception
(line 502), aborting the aggregation rather than defaulting a winner. -/
theorem c5_novotes_reported_and_propagated (counts : List Int) (env : Env)
    (collecting : List Session) (status : Session)
    (hc : env.fetchCounts status.id = []) :
    (tallyIdx counts = .error .noVotes ↔ counts = []) ∧
    (addUpVotes env collecting status).reportedTallyFailure = true ∧
    (addUpVotes env collecting status).error = some .valueErrorNoVotes := by
  refine ⟨tallyIdx_error_iff, ?_, ?_⟩ <;>
    simp [addUpVotes, reaction_result, hc, tallyIdx, pymax]

theorem c5_novotes_reported_and_propagated_witness :
    (Env.mk (fun _ => []) (fun _ => true)).fetchCounts
      (Session.mk 0 (some 0) 0 []).id = [] ∧
    ((tallyIdx [] = .error .noVotes ↔ ([] : List Int) = []) ∧
     (addUpVotes (Env.mk (fun _ => []) (fun _ => true)) []
        (Session.mk 0 (some 0) 0 [])).reportedTallyFailure = true ∧
     (addUpVotes (Env.mk (fun _ => []) (fun _ => true)) []
        (Session.mk 0 (some 0) 0 [])).error = some .valueErrorNoVotes) :=
  ⟨rfl, c5_novotes_reported_and_propagated [] _ [] _ rfl⟩

theorem addUpVotes_preserves_registry (env : Env) (collecting : List Session)
    (status : Session) :
    (addUpVotes env collecting status).registry = collecting ∧
    (addUpVotes env collecting status).error.isSome := by
  unfold addUpVotes
  repeat' split
  all_goals exact ⟨rfl, rfl⟩

/-- C3 counterexample: a concrete aggregation run in which the display update
(the `reaction_message.edit` at `schedule.py` line 518) fails: the exception
propagates out of `addUpVotes` and the session is NOT removed from the
registry, contradicting the claim that a display failure does not block
session removal. -/
theorem c3_display_failure_blocks_removal :
    (addUpVotes (Env.mk (fun _ => [3]) (fun _ => false))
        [Session.mk 1 (some 1) 0 [10]] (Session.mk 1 (some 1) 0 [10])).registry
      = [Session.mk 1 (some 1) 0 [10]] ∧
    (addUpVotes (Env.mk (fun _ => [3]) (fun _ => false))
        [Session.mk 1 (some 1) 0 [10]] (Session.mk 1 (some 1) 0 [10])).error
      = some .editFailed := by decide

/-- C3 amended: `addUpVotes` never removes the session from the registry.
A display failure propagates before the removal statement
(`schedule.py` line 541), and every run that gets past the display update
raises before removal anyway (`ValueError` when the guild is gone, otherwise
the unconditional `NameError` on the undefined `event_number` at line 527), so
the registry is unchanged by every aggregation run and every run ends in a
propagated exception. -/
theorem c3_removal_never_runs (env : Env) (collecting : List Session)
    (status : Session) :
    (addUpVotes env collecting status).registry = collecting ∧
    (addUpVotes env collecting status).error.isSome :=
  addUpVotes_preserves_registry env collecting status

/-- C2 counterexample: two sessions for different communities are both due in
the same tick; aggregation of the first raises (here the unconditional
`NameError` of `schedule.py` line 527, with every external call succeeding),
the exception escapes the `for c in self.collecting` scan, and the second due
session's aggregation is never invoked in that tick; the registry is
unchanged, so every later tick repeats the same scan and the second session is
never aggregated. -/
theorem c2_failure_blocks_other_session :
    (Session.mk 1 (some 1) 0 [10]).collect_end_date < 5 ∧
    (Session.mk 2 (some 2) 0 [20]).collect_end_date < 5 ∧
    update_presence (Env.mk (fun _ => [3]) (fun _ => true)) 5
        [Session.mk 1 (some 1) 0 [10], Session.mk 2 (some 2) 0 [20]] =
      ⟨[Session.mk 1 (some 1) 0 [10], Session.mk 2 (some 2) 0 [20]], [1],
       some .nameErrorEventNumber⟩ := by decide

/-- C2 amended: the tick iterates the live `self.collecting` list with no
exception handling around the body, and aggregation always raises before its
removal step, so whenever the first session of the registry is due, the tick
invokes only that session's aggregation, the raised exception aborts the
scan before any later due session is reached, and the registry is left
unchanged — hence a session listed after a due failing one is not aggregated
in that tick nor in any later tick (each later tick repeats the identical
scan). -/
theorem c2_tick_aborts_on_first_failure (env : Env) (now : Int) (s1 : Session)
    (rest : List Session) (h : s1.collect_end_date < now) :
    ∃ e, update_presence env now (s1 :: rest) =
      ⟨s1 :: rest, [s1.id], some e⟩ := by
  obtain ⟨hreg, herr⟩ := addUpVotes_preserves_registry env (s1 :: rest) s1
  obtain ⟨e, he⟩ := Option.isSome_iff_exists.mp herr
  refine ⟨e, ?_⟩
  show update_presence_aux env now ((s1 :: rest).length + 1) 0 (s1 :: rest) [] = _
  rw [List.length_cons]
  unfold update_presence_aux
  simp [h, he, hreg]

theorem c2_tick_aborts_on_first_failure_witness :
    (Session.mk 1 (some 1) 0 [10]).collect_end_date < 5 ∧
    ∃ e, update_presence (Env.mk (fun _ => [3]) (fun _ => true)) 5
        [Session.mk 1 (some 1) 0 [10], Session.mk 2 (some 2) 0 [20]] =
      ⟨[Session.mk 1 (some 1) 0 [10], Session.mk 2 (some 2) 0 [20]], [1], some e⟩ :=
  ⟨by decide,
   c2_tick_aborts_on_first_failure (Env.mk (fun _ => [3]) (fun _ => true)) 5
     (Session.mk 1 (some 1) 0 [10]) [Session.mk 2 (some 2) 0 [20]] (by decide)⟩

theorem generate_explicit_end (now s e : Int) (sr : Option Int) (ce : Int)
    (filter : Int → Bool) (ssr : Int) :
    generate_schedule_dates now (some s) (some e) sr (some ce) filter ssr =
      (List.range ((e - s) + 1).toNat).filterMap (fun (i : Nat) =>
        if filter (s + (i : Int)) && decide (s + (i : Int) > ce) then
          some (s + (i : Int)) else none) := by
  simp [generate_schedule_dates]

theorem pairwise_lt_filterMap_range (n : Nat) (g : Nat → Option Int)
    (hg : ∀ i j a b, i < j → g i = some a → g j = some b → a < b) :
    List.Pairwise (fun a b => a < b) (List.filterMap g (List.range n)) := by
  refine List.Pairwise.filterMap g ?_ (List.pairwise_lt_range n)
  intro i j hij a ha b hb
  exact hg i j a b hij ha hb

theorem generate_explicit_range (now s : Int) (n : Int) (ce : Int)
    (filter : Int → Bool) (ssr : Int) :
    generate_schedule_dates now (some s) none (some n) (some ce) filter ssr =
      (List.range n.toNat).filterMap (fun (i : Nat) =>
        if filter (s + (i : Int)) && decide (s + (i : Int) > ce) then
          some (s + (i : Int)) else none) := by
  simp [generate_schedule_dates]

theorem mem_day_walk (s ce : Int) (filter : Int → Bool) (m : Int) (d : Int) :
    d ∈ (List.range m.toNat).filterMap (fun (i : Nat) =>
        if filter (s + (i : Int)) && decide (s + (i : Int) > ce) then
          some (s + (i : Int)) else none) ↔
      ((∃ i : Nat, (i : Int) < m ∧ d = s + (i : Int)) ∧
        filter d = true ∧ d > ce) := by
  rw [List.mem_filterMap]
  constructor
  · rintro ⟨i, hi, hfi⟩
    rw [List.mem_range] at hi
    split at hfi
    · rename_i hcond
      simp only [Option.some.injEq] at hfi
      subst hfi
      rw [Bool.and_eq_true] at hcond
      obtain ⟨hf, hgt⟩ := hcond
      exact ⟨⟨i, Int.lt_toNat.mp hi, rfl⟩, hf, of_decide_eq_true hgt⟩
    · exact absurd hfi (by simp)
  · rintro ⟨⟨i, hi, rfl⟩, hf, hgt⟩
    refine ⟨i, ?_, ?_⟩
    · rw [List.mem_range]
      exact Int.lt_toNat.mpr hi
    · simp [hf, hgt]

theorem pairwise_day_walk (s ce : Int) (filter : Int → Bool) (m : Nat) :
    List.Pairwise (fun a b => a < b)
      ((List.range m).filterMap (fun (i : Nat) =>
        if filter (s + (i : Int)) && decide (s + (i : Int) > ce) then
          some (s + (i : Int)) else none)) := by
  refine pairwise_lt_filterMap_range _ _ ?_
  intro i j a b hij ha hb
  split at ha
  · simp only [Option.some.injEq] at ha
    split at hb
    · simp only [Option.some.injEq] at hb
      subst ha
      subst hb
      exact add_lt_add_left (Int.ofNat_lt.mpr hij) s
    · exact absurd hb (by simp)
  · exact absurd ha (by simp)

/-- C6: `generate_schedule_dates` walks day offsets `0 .. range-1` from the
start — where the range is `(end - start).days + 1` when an explicit end date
is given, or the supplied range length otherwise — and includes a day iff the
filter holds for it and the day is strictly after the collection-window end
(`schedule.py` lines 115-134); hence every returned date exceeds
`earliest_allowed` and the output is chronologically ascending. The concrete
instance start = 2024-01-01, end = 2024-01-10, filter = all,
earliest_allowed = 2024-01-05 (day numbers 0, 9 and 4 with 2024-01-01 as
day 0) yields exactly the five dates 2024-01-06 .. 2024-01-10
(day numbers 5 .. 9). -/
theorem c6_generator_window_and_order (now s e : Int) (sr : Option Int)
    (n : Int) (ce : Int) (filter : Int → Bool) (ssr : Int) :
    (∀ d, d ∈ generate_schedule_dates now (some s) (some e) sr (some ce)
        filter ssr ↔
      ((∃ i : Nat, (i : Int) < (e - s) + 1 ∧ d = s + (i : Int)) ∧
        filter d = true ∧ d > ce)) ∧
    (∀ d, d ∈ generate_schedule_dates now (some s) none (some n) (some ce)
        filter ssr ↔
      ((∃ i : Nat, (i : Int) < n ∧ d = s + (i : Int)) ∧
        filter d = true ∧ d > ce)) ∧
    List.Pairwise (fun a b => a < b)
      (generate_schedule_dates now (some s) (some e) sr (some ce) filter ssr) ∧
    List.Pairwise (fun a b => a < b)
      (generate_schedule_dates now (some s) none (some n) (some ce) filter
        ssr) ∧
    generate_schedule_dates 0 (some 0) (some 9) none (some 4)
      (fun _ => true) 60 = [5, 6, 7, 8, 9] := by
  refine ⟨?_, ?_, ?_, ?_, by decide⟩
  · intro d
    rw [generate_explicit_end]
    exact mem_day_walk s ce filter ((e - s) + 1) d
  · intro d
    rw [generate_explicit_range]
    exact mem_day_walk s ce filter n d
  · rw [generate_explicit_end]
    exact pairwise_day_walk s ce filter _
  · rw [generate_explicit_range]
    exact pairwise_day_walk s ce filter _

/-- C7 counterexample: with an explicit end date earlier than the start date
(day count `(end - start).days + 1 = -4`), `generate_schedule_dates` raises
nothing: it returns the empty list as its value (`range` over a non-positive
count is empty, `schedule.py` lines 122, 129-134), so the claimed
`InvalidRange` failure does not exist in the code. -/
theorem c7_end_before_start_returns_empty_list :
    generate_schedule_dates 0 (some 10) (some 5) none (some 0)
      (fun _ => true) 60 = [] := by decide

/-- C7 amended: whenever the resulting day count is zero or negative — via
an explicit end date before the start date (day count `(end - start).days + 1
≤ 0`) or via a non-positive supplied range length with the end date absent —
the candidate generator does not fail: it returns the empty list (Python's
`range` over a non-positive count is empty, `schedule.py` lines 115-134; the
zero-candidate condition is instead reported by the caller after generation,
lines 405-412). -/
theorem c7_nonpositive_range_returns_empty (now s e n : Int) (sr : Option Int)
    (ce : Int) (filter : Int → Bool) (ssr : Int) :
    ((e - s) + 1 ≤ 0 →
      generate_schedule_dates now (some s) (some e) sr (some ce) filter ssr
        = []) ∧
    (n ≤ 0 →
      generate_schedule_dates now (some s) none (some n) (some ce) filter ssr
        = []) := by
  constructor
  · intro h
    rw [generate_explicit_end, Int.toNat_of_nonpos h]
    rfl
  · intro h
    rw [generate_explicit_range, Int.toNat_of_nonpos h]
    rfl

theorem c7_nonpositive_range_returns_empty_witness :
    (((5 : Int) - 10) + 1 ≤ 0 ∧
     generate_schedule_dates 0 (some 10) (some 5) none (some 0)
       (fun _ => true) 60 = []) ∧
    ((-3 : Int) ≤ 0 ∧
     generate_schedule_dates 0 (some 10) none (some (-3)) (some 0)
       (fun _ => true) 60 = []) :=
  ⟨⟨by decide,
    (c7_nonpositive_range_returns_empty 0 10 5 (-3) none 0 (fun _ => true)
      60).1 (by decide)⟩,
   ⟨by decide,
    (c7_nonpositive_range_returns_empty 0 10 5 (-3) none 0 (fun _ => true)
      60).2 (by decide)⟩⟩

/-- C8 counterexample: the spelling `"holidays"` is not a key of the filter
table (`schedule.py` lines 58-63 spell it `"holydays"`), so a start request
naming the `holidays` filter is rejected by the filter-name check at
line 294 — contradicting the claim that `holidays` is recognized. -/
theorem c8_holidays_spelling_rejected :
    filterOfName (fun _ => false) "holidays" = none ∧
    scheduleCheck (fun _ => some 100) 0 []
      (ScheduleRequest.mk (some 1) (some "2124-01-01") (some "2124-01-10")
        none "holidays" 21 23) = .error .unknownFilter := by
  exact ⟨rfl, rfl⟩

/-- C8 amended: the set of selectable day-filter names is exactly
`{all, weekday, weekend, holydays}` — the holiday filter is spelled
`holydays`, and the spelling `holidays` is rejected as an unknown filter;
`all` always holds, `weekday` holds iff Python `weekday() < 5`
(Monday = 0, i.e. Monday-Friday), `weekend` iff `weekday() >= 5`, and
`holydays` iff the day is a weekend day or a recognized public holiday. -/
theorem c8_filter_name_table (h : Int → Bool) :
    (∀ name, (filterOfName h name).isSome = true ↔
      (name = "all" ∨ name = "weekday" ∨ name = "weekend" ∨
       name = "holydays")) ∧
    filterOfName h "holidays" = none ∧
    filterOfName h "all" = some (fun _ => true) ∧
    filterOfName h "weekday" = some (fun x => decide (pyWeekday x < 5)) ∧
    filterOfName h "weekend" = some (fun x => decide (pyWeekday x ≥ 5)) ∧
    filterOfName h "holydays" =
      some (fun x => decide (pyWeekday x ≥ 5) || h x) := by
  refine ⟨?_, rfl, rfl, rfl, rfl, rfl⟩
  intro name
  unfold filterOfName
  split_ifs with h1 h2 h3 h4 <;> simp_all

/-- C9 counterexample: a start request carrying both an unparseable start
date (the `dateutil` collaborator rejects every string here) and an
unrecognized filter name is answered with the unknown-filter error, not the
invalid-date error: the filter-name check (`schedule.py` line 294) runs
before date parsing (line 306), contrary to the spec's stated order. -/
theorem c9_filter_checked_before_date_parse :
    scheduleCheck (fun _ => none) 0 []
      (ScheduleRequest.mk (some 1) (some "not-a-date") (some "not-a-date")
        none "bogus" 21 23) = .error .unknownFilter := rfl

/-- C9 amended: the start flow checks the filter name before parsing the date
strings: every request that passes the already-collecting, guild-context and
conflicting-parameters checks and carries an unrecognized filter name is
rejected with the unknown-filter error, regardless of whether its date
strings parse — so when both violations are present the unknown-filter error,
not the invalid-date error, is reported. -/
theorem c9_unknown_filter_reported_first (parseDate : String → Option Int)
    (now : Int) (collecting : List Session) (req : ScheduleRequest)
    (h1 : collecting.any (fun c => c.guild == req.guild) = false)
    (h2 : ¬req.guild = none)
    (h3 : (req.schedule_range.isSome && req.end_date.isSome) = false)
    (h4 : FILTER_KEYS.contains req.filter_type = false) :
    scheduleCheck parseDate now collecting req = .error .unknownFilter := by
  unfold scheduleCheck
  rw [if_neg (by rw [h1]; exact Bool.false_ne_true)]
  rw [if_neg h2]
  rw [if_neg (by rw [h3]; exact Bool.false_ne_true)]
  rw [if_pos (by rw [h4]; rfl)]

theorem c9_unknown_filter_reported_first_witness :
    ([] : List Session).any (fun c => c.guild ==
      (ScheduleRequest.mk (some 1) (some "junk") none none "bogus" 21
        23).guild) = false ∧
    ¬(ScheduleRequest.mk (some 1) (some "junk") none none "bogus" 21
        23).guild = none ∧
    ((ScheduleRequest.mk (some 1) (some "junk") none none "bogus" 21
        23).schedule_range.isSome &&
     (ScheduleRequest.mk (some 1) (some "junk") none none "bogus" 21
        23).end_date.isSome) = false ∧
    FILTER_KEYS.contains
      (ScheduleRequest.mk (some 1) (some "junk") none none "bogus" 21
        23).filter_type = false ∧
    scheduleCheck (fun _ => none) 0 []
      (ScheduleRequest.mk (some 1) (some "junk") none none "bogus" 21 23) =
      .error .unknownFilter :=
  ⟨rfl, by decide, rfl, by decide,
   c9_unknown_filter_reported_first (fun _ => none) 0 []
     (ScheduleRequest.mk (some 1) (some "junk") none none "bogus" 21 23)
     rfl (by decide) rfl (by decide)⟩

theorem scheduleCheck_ok_requires_both {p : String → Option Int} {n : Int}
    {c : List Session} {r : ScheduleRequest} {v : Int × Int}
    (hok : scheduleCheck p n c r = .ok v) :
    r.start_date.isSome = true ∧ r.end_date.isSome = true := by
  unfold scheduleCheck at hok
  by_cases hA : (c.any fun s => s.guild == r.guild) = true
  · rw [if_pos hA] at hok
    exact absurd hok (by simp)
  rw [if_neg hA] at hok
  by_cases hB : r.guild = none
  · rw [if_pos hB] at hok
    exact absurd hok (by simp)
  rw [if_neg hB] at hok
  by_cases hC : (r.schedule_range.isSome && r.end_date.isSome) = true
  · rw [if_pos hC] at hok
    exact absurd hok (by simp)
  rw [if_neg hC] at hok
  by_cases hD : (!FILTER_KEYS.contains r.filter_type) = true
  · rw [if_pos hD] at hok
    exact absurd hok (by simp)
  rw [if_neg hD] at hok
  cases hS : r.start_date with
  | none =>
    simp only [hS] at hok
    cases hE : r.end_date with
    | none =>
      simp only [hE] at hok
      exact absurd hok (by simp)
    | some t =>
      simp only [hE] at hok
      cases hT : p t with
      | none =>
        simp only [hT] at hok
        exact absurd hok (by simp)
      | some d =>
        simp only [hT] at hok
        exact absurd hok (by simp)
  | some s =>
    simp only [hS] at hok
    cases hPs : p s with
    | none =>
      simp only [hPs] at hok
      exact absurd hok (by simp)
    | some d =>
      simp only [hPs] at hok
      cases hE : r.end_date with
      | none =>
        simp only [hE] at hok
        exact absurd hok (by simp)
      | some t => simp [hS, hE]

/-- C10: when a start request passes the already-collecting, guild-context,
conflicting-parameters and filter-name checks, every provided date string
parses, but `start_date` or `end_date` was omitted, the flow dies on the bare
`assert start_datetime is not None and end_datetime is not None`
(`schedule.py` line 330) instead of a user-facing error; and conversely the
validation only succeeds (reaching candidate generation) when both dates were
provided, so the generator's default-range path is unreachable from the start
flow. -/
theorem c10_omitted_date_hits_assert (parseDate : String → Option Int)
    (now : Int) (collecting : List Session) (req : ScheduleRequest)
    (h1 : collecting.any (fun c => c.guild == req.guild) = false)
    (h2 : ¬req.guild = none)
    (h3 : (req.schedule_range.isSome && req.end_date.isSome) = false)
    (h4 : FILTER_KEYS.contains req.filter_type = true)
    (h5 : ∀ s, req.start_date = some s → (parseDate s).isSome = true)
    (h6 : ∀ s, req.end_date = some s → (parseDate s).isSome = true)
    (h7 : req.start_date = none ∨ req.end_date = none) :
    scheduleCheck parseDate now collecting req = .error .assertionError ∧
    ∀ (p : String → Option Int) (n : Int) (c : List Session)
      (r : ScheduleRequest) (v : Int × Int),
      scheduleCheck p n c r = .ok v →
      r.start_date.isSome = true ∧ r.end_date.isSome = true := by
  refine ⟨?_, fun p n c r v hok => scheduleCheck_ok_requires_both hok⟩
  unfold scheduleCheck
  rw [if_neg (by rw [h1]; exact Bool.false_ne_true)]
  rw [if_neg h2]
  rw [if_neg (by rw [h3]; exact Bool.false_ne_true)]
  rw [if_neg (by rw [h4]; simp)]
  rcases h7 with h7 | h7
  · cases hE : req.end_date with
    | none => simp [h7, hE]
    | some t =>
      obtain ⟨d, hd⟩ := Option.isSome_iff_exists.mp (h6 t hE)
      simp [h7, hE, hd]
  · cases hS : req.start_date with
    | none => simp [h7, hS]
    | some s =>
      obtain ⟨d, hd⟩ := Option.isSome_iff_exists.mp (h5 s hS)
      simp [h7, hS, hd]

theorem c10_omitted_date_hits_assert_witness :
    ([] : List Session).any (fun c => c.guild ==
      (ScheduleRequest.mk (some 1) (some "2124-01-01") none none "all" 21
        23).guild) = false ∧
    ¬(ScheduleRequest.mk (some 1) (some "2124-01-01") none none "all" 21
        23).guild = none ∧
    ((ScheduleRequest.mk (some 1) (some "2124-01-01") none none "all" 21
        23).schedule_range.isSome &&
     (ScheduleRequest.mk (some 1) (some "2124-01-01") none none "all" 21
        23).end_date.isSome) = false ∧
    FILTER_KEYS.contains
      (ScheduleRequest.mk (some 1) (some "2124-01-01") none none "all" 21
        23).filter_type = true ∧
    scheduleCheck (fun _ => some 100) 0 []
      (ScheduleRequest.mk (some 1) (some "2124-01-01") none none "all" 21 23)
      = .error .assertionError :=
  ⟨rfl, by decide, rfl, by decide,
   (c10_omitted_date_hits_assert (fun _ => some 100) 0 []
     (ScheduleRequest.mk (some 1) (some "2124-01-01") none none "all" 21 23)
     rfl (by decide) rfl (by decide) (fun s _ => rfl)
     (fun s hs => Option.noConfusion hs) (Or.inr rfl)).1⟩

